import Mathlib

/-!
Shallow embedding of `src/tpot2/objectives.py`: the fault-tolerant
fitness-evaluation engine (score sentinels and width normalization, the
safe objective invoker, the multi-objective evaluator, the parallel
dispatchers, the staged evaluator, and the safe optimization invoker).

Modelling conventions:
* Numeric scores are rationals (`Rat`); numpy's `nan` is a distinct
  constructor (it arises only in the optimization path's failure
  convention and as the mean of an empty float array).
* The string sentinels `"TIMEOUT"` and `"INVALID"` are the constructors
  `Score.timeout` and `Score.invalid`.
* A call to an objective (or to `individual.optimize`) is summarized by an
  `ObjCall`: its wall-clock `duration` and its `result` (a returned value
  or a raised exception).  The timeout machinery (`func_timeout`,
  `stopit.threading_timeoutable`) is modelled by comparing the budget with
  `duration`: a call whose duration exceeds the budget is interrupted —
  `func_timeout` raises `FunctionTimedOut` at the call site, while
  `stopit` async-raises its `TimeoutException` (an `Exception` subclass)
  inside the decorated body.
* Python exceptions raised *by our own functions* (NameError from an
  unbound local, TypeError from `zip` over a scalar, IndexError,
  numpy's ValueError) are modelled with `Except PyError`.
* Keyword arguments forwarded through `**objective_kwargs` are modelled by
  the record `Kwargs`; an objective receives the record and may reject
  unexpected keys by raising (as any Python callable does).
* Verbosity and warning capture only affect printing, never the returned
  data; the `verbose` parameter is kept for fidelity but is inert.
* `dask.compute` over `dask.delayed` pure tasks is modelled by
  `dask_compute`: results are collected in the order of the submitted
  task list (input order), and a task's own uncaught exception propagates.
  `n_jobs` (worker count) does not influence the computed values.
-/

deriving instance DecidableEq for Except

/-- One entry of a score row: a finite numeric value, numpy `nan`, or one of
the two string sentinels `"TIMEOUT"` / `"INVALID"`. -/
inductive Score where
  | num (x : Rat)
  | nan
  | timeout
  | invalid
deriving DecidableEq

/-- An exception raised by user code (an objective function or
`individual.optimize`).  `typeError` stands for Python's TypeError, e.g. a
call with unexpected keyword arguments; `generic` is any other exception. -/
inductive PyExc where
  | typeError
  | generic (code : Nat)
deriving DecidableEq

/-- An exception raised by the engine's own code paths. -/
inductive PyError where
  | nameError
  | typeError
  | valueError
  | indexError
deriving DecidableEq

/-- A value returned by an objective function: a bare number or a sequence
of numbers (the two shapes the invoker accepts). -/
inductive PyValue where
  | scalar (x : Rat)
  | list (xs : List Rat)
deriving DecidableEq

/-- The observable behaviour of one call into user code: how long it runs
and whether it returns a value or raises. -/
structure ObjCall where
  duration : Nat
  result : Except PyExc PyValue

/-- The keyword arguments that flow through `**objective_kwargs` in this
file.  A `none` field means the keyword is absent.  `thresholds` is doubly
optional because `parallel_eval_objective_list_by_steps` always passes the
keyword, possibly with value `None`. -/
structure Kwargs where
  step : Option Nat := none
  n_steps : Option Nat := none
  objective_function_weights : Option (List Rat) := none
  final_score_strategy : Option String := none
  thresholds : Option (Option (List (List Score))) := none

/-- Wrapping of a returned value into a score row: a non-iterable result is
wrapped into a one-element sequence (`value = [value]`), a sequence is
taken elementwise. -/
def pyval_to_scores : PyValue → List Score
  | PyValue.scalar x => [Score.num x]
  | PyValue.list xs => xs.map Score.num

/-- `process_scores(scores, n)` from `objectives.py`: every row shorter
than `n` is replaced by `n` copies of `"TIMEOUT"` when it contains
`"TIMEOUT"`, by `n` copies of `"INVALID"` otherwise; other rows are left
as they are. -/
def process_scores (scores : List (List Score)) (n : Nat) : List (List Score) :=
  scores.map (fun row =>
    if row.length < n then
      if Score.timeout ∈ row then List.replicate n Score.timeout
      else List.replicate n Score.invalid
    else row)

/-- `objective_nan_wrapper` from `objectives.py`: call the objective on the
individual (under `func_timeout` when `timeout` is set); a timed-out call
is abandoned and yields `["TIMEOUT"]`; a raised exception is caught and
yields `["INVALID"]`; a returned bare number is wrapped into a singleton.
The warning capture and the verbosity-gated printing do not affect the
returned row. -/
def objective_nan_wrapper {I : Type} (individual : I)
    (objective_function : I → Kwargs → ObjCall) (verbose : Nat)
    (timeout : Option Nat) (kw : Kwargs) : List Score :=
  let call := objective_function individual kw
  match timeout with
  | none =>
    match call.result with
    | Except.ok value => pyval_to_scores value
    | Except.error _ => [Score.invalid]
  | some t =>
    if t < call.duration then [Score.timeout]
    else
      match call.result with
      | Except.ok value => pyval_to_scores value
      | Except.error _ => [Score.invalid]

/-- `np.concatenate` over a list of 1-D rows: flattens them; numpy raises
ValueError when given no arrays at all. -/
def np_concatenate (rows : List (List Score)) : Except PyError (List Score) :=
  if rows.isEmpty then Except.error PyError.valueError
  else Except.ok rows.flatten

/-- `eval_objective_list` from `objectives.py`: invoke the wrapper once per
objective, in list order, and concatenate the rows.  The `timeout` key of
`**objective_kwargs` binds the wrapper's own `timeout` parameter, the rest
reach the objective. -/
def eval_objective_list {I : Type} (ind : I)
    (objective_list : List (I → Kwargs → ObjCall)) (verbose : Nat)
    (timeout : Option Nat) (kw : Kwargs) : Except PyError (List Score) :=
  np_concatenate (objective_list.map (fun obj =>
    objective_nan_wrapper ind obj verbose timeout kw))

/-- `dask.compute` over a list of `dask.delayed` applications of a pure
function: the results come back in the order the tasks were submitted,
and an exception escaping any task propagates to the caller. -/
def dask_compute {ε α β : Type} (f : α → Except ε β) : List α → Except ε (List β)
  | [] => Except.ok []
  | a :: t =>
    match f a with
    | Except.error e => Except.error e
    | Except.ok b =>
      match dask_compute f t with
      | Except.error e => Except.error e
      | Except.ok bs => Except.ok (b :: bs)

/-- `parallel_eval_objective_list` from `objectives.py`: one delayed
evaluation task per individual, computed with `n_jobs` workers, results
collected in input order, then width-normalized when
`n_expected_columns` is given.  The progress bar is display only. -/
def parallel_eval_objective_list {I : Type} (individual_list : List I)
    (objective_list : List (I → Kwargs → ObjCall)) (n_jobs verbose : Nat)
    (timeout : Option Nat) (n_expected_columns : Option Nat) (kw : Kwargs) :
    Except PyError (List (List Score)) :=
  match dask_compute
      (fun ind => eval_objective_list ind objective_list verbose timeout kw)
      individual_list with
  | Except.error e => Except.error e
  | Except.ok offspring_scores =>
    match n_expected_columns with
    | some n => Except.ok (process_scores offspring_scores n)
    | none => Except.ok offspring_scores

/-- Is this entry a float in numpy's eyes?  Sentinel strings force the
concatenated array to a string dtype, on which `mean` is unsupported. -/
def Score.isNum : Score → Bool
  | Score.num _ => true
  | Score.nan => true
  | _ => false

/-- The rational carried by a numeric entry. -/
def Score.toRat : Score → Rat
  | Score.num x => x
  | _ => 0

/-- `scores.mean(axis=0)` on the 1-D array `scores`: a scalar.  On a string
dtype (a row holding a sentinel) numpy raises TypeError; the mean of an
empty float array is `nan`; a `nan` entry makes the mean `nan`. -/
def np_mean1d (xs : List Score) : Except PyError Score :=
  if xs.any (fun s => !s.isNum) then Except.error PyError.typeError
  else if xs.isEmpty then Except.ok Score.nan
  else if xs.any (fun s => s == Score.nan) then Except.ok Score.nan
  else Except.ok (Score.num ((xs.map Score.toRat).sum / (xs.length : Rat)))

/-- `scores[-1]` on the 1-D array `scores`: its last element (a scalar);
IndexError on an empty array. -/
def np_last1d (xs : List Score) : Except PyError Score :=
  match xs.getLast? with
  | some s => Except.ok s
  | none => Except.error PyError.indexError

/-- `np.sign` over the weight vector. -/
def np_sign (w : List Rat) : List Rat :=
  w.map (fun x => if 0 < x then 1 else if x < 0 then -1 else 0)

/-- The `for step in range(n_steps)` loop of `eval_objective_list_by_steps`,
over the remaining step indices.  The accumulator mirrors the Python
locals: `all_scores` (appended to and never read back), and the possibly
still unbound locals `scores` and `final_scores` (`none` = unbound; both
unbound until the first iteration assigns them, `final_scores` only by the
`'mean'`/`'last'` branches).  In the threshold branch the code evaluates
`zip(final_scores, threshold, objective_function_signs)`: looking up an
unbound `final_scores` raises NameError, and iterating the scalar
(`np.float64`) that `'mean'`/`'last'` produced raises TypeError, so the
comparison itself is never reached. -/
def eval_steps_loop {I : Type} (ind : I)
    (objective_list : List (I → Kwargs → ObjCall))
    (final_score_strategy : String)
    (thresholds : Option (List (List Score))) (verbose : Nat) (kw : Kwargs) :
    List Nat → List (List Score) → Option (List Score) → Option Score →
    Except PyError (List Score × Score)
  | [], _, scoresVar, finalVar =>
    match scoresVar, finalVar with
    | some s, some f => Except.ok (s, f)
    | _, _ => Except.error PyError.nameError
  | step :: rest, all_scores, _, finalVar =>
    match np_concatenate (objective_list.map (fun obj =>
        objective_nan_wrapper ind obj verbose none { kw with step := some step })) with
    | Except.error e => Except.error e
    | Except.ok scores =>
      let all_scores := all_scores ++ [scores]
      match (if final_score_strategy = "mean" then (np_mean1d scores).map some
             else if final_score_strategy = "last" then (np_last1d scores).map some
             else Except.ok finalVar) with
      | Except.error e => Except.error e
      | Except.ok finalVar =>
        match thresholds with
        | some ths =>
          match ths.get? step with
          | none => Except.error PyError.indexError
          | some _threshold =>
            match finalVar with
            | none => Except.error PyError.nameError
            | some _ => Except.error PyError.typeError
        | none =>
          eval_steps_loop ind objective_list final_score_strategy thresholds
            verbose kw rest all_scores (some scores) finalVar

/-- `eval_objective_list_by_steps` from `objectives.py`: compute the sign
vector of the weights, then run the step loop with all locals unbound. -/
def eval_objective_list_by_steps {I : Type} (ind : I)
    (objective_list : List (I → Kwargs → ObjCall)) (n_steps : Nat)
    (objective_function_weights : List Rat) (final_score_strategy : String)
    (thresholds : Option (List (List Score))) (verbose : Nat) (kw : Kwargs) :
    Except PyError (List Score × Score) :=
  let _objective_function_signs := np_sign objective_function_weights
  eval_steps_loop ind objective_list final_score_strategy thresholds verbose kw
    (List.range n_steps) [] none none

/-- `parallel_eval_objective_list_by_steps` from `objectives.py`: despite
its name it builds its delayed tasks from `eval_objective_list` (not the
staged evaluator), so `n_steps`, `objective_function_weights`,
`final_score_strategy` and `thresholds` travel through
`**objective_kwargs` into each objective call, while `timeout` binds the
wrapper's own parameter. -/
def parallel_eval_objective_list_by_steps {I : Type} (individual_list : List I)
    (objective_list : List (I → Kwargs → ObjCall))
    (objective_function_weights : List Rat) (n_steps : Nat)
    (final_score_strategy : String)
    (thresholds : Option (List (List Score))) (n_jobs verbose : Nat)
    (timeout : Option Nat) (kw : Kwargs) : Except PyError (List (List Score)) :=
  dask_compute
    (fun ind => eval_objective_list ind objective_list verbose timeout
      { kw with n_steps := some n_steps,
                objective_function_weights := some objective_function_weights,
                final_score_strategy := some final_score_strategy,
                thresholds := some thresholds })
    individual_list

/-- The shape of a result of the `@threading_timeoutable(np.nan)`-decorated
`optimize_objective`: `list` for a row returned by the function body,
`scalar` for the decorator's bare default `np.nan`.  The body intercepts
`stopit.TimeoutException` (an `Exception` subclass) with its blanket
`except`, so in the deterministic model every path returns through the
body and produces a `list`; the bare `scalar` default would surface only
in a race where the async exception lands outside the `try`. -/
inductive OptResult where
  | scalar (x : Score)
  | list (xs : List Score)
deriving DecidableEq

/-- `optimize_objective` from `objectives.py`: call
`ind.optimize(objective, steps)` under `stopit`'s threading timeout.  On
budget expiry `stopit` async-raises `TimeoutException` — a subclass of
`Exception` — inside the executing body (typically during
`ind.optimize`), where the body's blanket `except Exception` catches it
and returns the list `[np.nan]`; so the decorator's bare scalar `np.nan`
default is bypassed and a timed-out call yields `[np.nan]`.  Any other
raised exception is likewise caught and yields the list `[np.nan]`; a
returned bare number is wrapped into a singleton list. -/
def optimize_objective {I O : Type} (optimize_impl : I → O → Nat → ObjCall)
    (ind : I) (objective : O) (steps verbose : Nat) (timeout : Option Nat) :
    OptResult :=
  let call := optimize_impl ind objective steps
  match timeout with
  | some t =>
    if t < call.duration then OptResult.list [Score.nan]
    else
      match call.result with
      | Except.ok value => OptResult.list (pyval_to_scores value)
      | Except.error _ => OptResult.list [Score.nan]
  | none =>
    match call.result with
    | Except.ok value => OptResult.list (pyval_to_scores value)
    | Except.error _ => OptResult.list [Score.nan]

/-- A step-indexed stub objective of arity 2: it returns the vector
`[1, 3]` at step 0 and `[5, 7]` at step 1. -/
def step_obj : Unit → Kwargs → ObjCall := fun _ kw =>
  match kw.step with
  | some 0 => ⟨0, Except.ok (PyValue.list [1, 3])⟩
  | some 1 => ⟨0, Except.ok (PyValue.list [5, 7])⟩
  | _ => ⟨0, Except.error (PyExc.generic 0)⟩

/-- A stub objective that returns the scalar `10` at every step. -/
def const_obj : Unit → Kwargs → ObjCall := fun _ _ =>
  ⟨0, Except.ok (PyValue.scalar 10)⟩

/-- A typical objective: it accepts the individual and an optional `step`
keyword, and — like any Python callable — raises TypeError when handed
keyword arguments its signature does not declare (`n_steps`,
`objective_function_weights`, `final_score_strategy`, `thresholds`). -/
def plain_obj : Unit → Kwargs → ObjCall := fun _ kw =>
  if kw.n_steps = none ∧ kw.objective_function_weights = none ∧
      kw.final_score_strategy = none ∧ kw.thresholds = none then
    ⟨0, Except.ok (PyValue.scalar 3)⟩
  else ⟨0, Except.error PyExc.typeError⟩

/-- A stub objective over natural-number individuals that scores each
individual by its own value. -/
def id_obj : Nat → Kwargs → ObjCall := fun x _ =>
  ⟨0, Except.ok (PyValue.scalar x)⟩

/-- A stub objective that always raises. -/
def raising_obj : Unit → Kwargs → ObjCall := fun _ _ =>
  ⟨0, Except.error (PyExc.generic 7)⟩

/-- A stub objective that runs for 100 seconds before returning. -/
def slow_obj : Unit → Kwargs → ObjCall := fun _ _ =>
  ⟨100, Except.ok (PyValue.scalar 1)⟩

/-- A stub `individual.optimize` implementation that runs for 5 seconds and
then raises. -/
def raising_optimize_impl : Unit → Unit → Nat → ObjCall := fun _ _ _ =>
  ⟨5, Except.error (PyExc.generic 1)⟩

/-- Positional description of a map: element `i` of `l.map f` is `f` of
element `i` of `l`. -/
theorem get_of_map {α β : Type} (f : α → β) (l : List α) :
    ∀ (i : Nat) (h1 : i < (l.map f).length) (h2 : i < l.length),
      (l.map f).get ⟨i, h1⟩ = f (l.get ⟨i, h2⟩) := by
  induction l with
  | nil => intro i h1 h2; exact absurd h2 (Nat.not_lt_zero i)
  | cons a t ih =>
    intro i h1 h2
    cases i with
    | zero => rfl
    | succ i => exact ih i (by simp at h1 ⊢; omega) (by simp at h2 ⊢; omega)

/-- Every pair of `l` zipped with its own image under `f` relates an
element to its image. -/
theorem zip_map_snd_eq {α β : Type} (f : α → β) (l : List α) :
    ∀ p ∈ l.zip (l.map f), p.2 = f p.1 := by
  induction l with
  | nil => intro p hp; simp at hp
  | cons a t ih =>
    intro p hp
    simp only [List.map_cons, List.zip_cons_cons, List.mem_cons] at hp
    rcases hp with rfl | hp
    · rfl
    · exact ih p hp

/-- A successful `dask_compute` returns one result per submitted task. -/
theorem dask_compute_ok_length {ε α β : Type} (f : α → Except ε β) (l : List α) :
    ∀ (b : List β), dask_compute f l = Except.ok b → b.length = l.length := by
  induction l with
  | nil =>
    intro b h
    simp [dask_compute] at h
    simp [← h]
  | cons a t ih =>
    intro b h
    cases hfa : f a with
    | error e => simp [dask_compute, hfa] at h
    | ok v =>
      cases hdt : dask_compute f t with
      | error e => simp [dask_compute, hfa, hdt] at h
      | ok bs =>
        simp [dask_compute, hfa, hdt] at h
        subst h
        simp [ih bs hdt]

/-- A successful `dask_compute` returns, at each position, exactly the
result of the task submitted at that position: completion order cannot
leak into the collected list. -/
theorem dask_compute_ok_get {ε α β : Type} (f : α → Except ε β) (l : List α) :
    ∀ (b : List β), dask_compute f l = Except.ok b →
      ∀ (i : Nat) (h1 : i < l.length) (h2 : i < b.length),
        f (l.get ⟨i, h1⟩) = Except.ok (b.get ⟨i, h2⟩) := by
  induction l with
  | nil => intro b h i h1 h2; exact absurd h1 (Nat.not_lt_zero i)
  | cons a t ih =>
    intro b h i h1 h2
    cases hfa : f a with
    | error e => simp [dask_compute, hfa] at h
    | ok v =>
      cases hdt : dask_compute f t with
      | error e => simp [dask_compute, hfa, hdt] at h
      | ok bs =>
        simp [dask_compute, hfa, hdt] at h
        subst h
        cases i with
        | zero => simpa using hfa
        | succ i => exact ih bs hdt i (by simp at h1 ⊢; omega) (by simp at h2 ⊢; omega)

/-- Row `i` of `process_scores scores n` is the repaired row `i` of
`scores`. -/
theorem process_scores_get (scores : List (List Score)) (n : Nat) (i : Nat)
    (h1 : i < (process_scores scores n).length) (h2 : i < scores.length) :
    (process_scores scores n).get ⟨i, h1⟩
      = (fun row => if row.length < n then
            (if Score.timeout ∈ row then List.replicate n Score.timeout
             else List.replicate n Score.invalid)
          else row) (scores.get ⟨i, h2⟩) :=
  get_of_map _ scores i h1 h2

/-- C1: for every score matrix and target width `n`, `process_scores`
returns a matrix of the same height in which every row originally shorter
than `n` becomes `n` copies of `"TIMEOUT"` if it contained `"TIMEOUT"`
anywhere and `n` copies of `"INVALID"` otherwise, while every row of
length `n` or more (over-length rows included) is left exactly
unchanged. -/
theorem process_scores_normalizes (scores : List (List Score)) (n : Nat) :
    (process_scores scores n).length = scores.length ∧
    ∀ p ∈ scores.zip (process_scores scores n),
      (p.1.length < n → Score.timeout ∈ p.1 →
        p.2 = List.replicate n Score.timeout) ∧
      (p.1.length < n → Score.timeout ∉ p.1 →
        p.2 = List.replicate n Score.invalid) ∧
      (n ≤ p.1.length → p.2 = p.1) := by
  refine ⟨by simp [process_scores], ?_⟩
  intro p hp
  have hsnd := zip_map_snd_eq _ scores p hp
  refine ⟨?_, ?_, ?_⟩
  · intro hlt hmem
    rw [hsnd]
    simp [hlt, hmem]
  · intro hlt hmem
    rw [hsnd]
    simp [hlt, hmem]
  · intro hge
    rw [hsnd]
    simp [Nat.not_lt.mpr hge]

/-- Witness for C1 at a concrete matrix: the short row `["TIMEOUT"]` of the
matrix `[["TIMEOUT"]]` is rewritten to two copies of `"TIMEOUT"` when the
target width is 2. -/
theorem process_scores_normalizes_witness :
    ([Score.timeout], [Score.timeout, Score.timeout])
        ∈ ([[Score.timeout]] : List (List Score)).zip
            (process_scores [[Score.timeout]] 2) ∧
    ([Score.timeout] : List Score).length < 2 ∧
    Score.timeout ∈ ([Score.timeout] : List Score) ∧
    [Score.timeout, Score.timeout] = List.replicate 2 Score.timeout :=
  ⟨by decide, by decide, by decide,
    ((process_scores_normalizes [[Score.timeout]] 2).2
        ([Score.timeout], [Score.timeout, Score.timeout]) (by decide)).1
      (by decide) (by decide)⟩

/-- C2: for every individual and every objective function whose call raises
an exception (observed by the wrapper, i.e. the call is not cut off by the
time budget first), `objective_nan_wrapper` returns the single-element row
`["INVALID"]`; the wrapper is a total function into score rows, so the
exception never propagates to the caller. -/
theorem objective_nan_wrapper_exception_invalid {I : Type} (individual : I)
    (objective_function : I → Kwargs → ObjCall) (verbose : Nat)
    (timeout : Option Nat) (kw : Kwargs) (e : PyExc)
    (hraise : (objective_function individual kw).result = Except.error e)
    (hfast : ∀ t, timeout = some t →
      (objective_function individual kw).duration ≤ t) :
    objective_nan_wrapper individual objective_function verbose timeout kw
      = [Score.invalid] := by
  cases timeout with
  | none => simp [objective_nan_wrapper, hraise]
  | some t =>
    have h := hfast t rfl
    simp [objective_nan_wrapper, hraise, Nat.not_lt.mpr h]

/-- Witness for C2: an objective that always raises yields `["INVALID"]`
when invoked without a timeout. -/
theorem objective_nan_wrapper_exception_invalid_witness :
    objective_nan_wrapper () raising_obj 0 none {} = [Score.invalid] :=
  objective_nan_wrapper_exception_invalid () raising_obj 0 none {}
    (PyExc.generic 7) rfl (fun _ h => Option.noConfusion h)

/-- C3: when `timeout` is set and the objective call runs longer than the
budget, `objective_nan_wrapper` abandons the call and returns the
single-element row `["TIMEOUT"]`. -/
theorem objective_nan_wrapper_timeout_row {I : Type} (individual : I)
    (objective_function : I → Kwargs → ObjCall) (verbose t : Nat)
    (kw : Kwargs)
    (hslow : t < (objective_function individual kw).duration) :
    objective_nan_wrapper individual objective_function verbose (some t) kw
      = [Score.timeout] := by
  simp [objective_nan_wrapper, hslow]

/-- Witness for C3: a 100-second objective under a 1-second budget yields
`["TIMEOUT"]`. -/
theorem objective_nan_wrapper_timeout_row_witness :
    objective_nan_wrapper () slow_obj 0 (some 1) {} = [Score.timeout] :=
  objective_nan_wrapper_timeout_row () slow_obj 0 1 {} (by decide)

/-- C4 (refuting evaluation): `eval_objective_list_by_steps` does append
each step's vector to the history `all_scores`, but it reduces the
*current step's vector* `scores`, not the accumulated history.  With an
arity-2 objective scoring `[1, 3]` at step 0 and `[5, 7]` at step 1 over
two steps, `'mean'` yields the scalar `6` — the within-vector mean of the
last step `[5, 7]` — where the claim requires the across-step mean vector
`[3, 5]`; `'last'` yields the scalar `7` — the last *element* of `[5, 7]`
— where the claim requires the most recent step's whole vector. -/
theorem eval_by_steps_reduces_current_step_only :
    eval_objective_list_by_steps () [step_obj] 2 [1, 1] "mean" none 0 {}
      = Except.ok ([Score.num 5, Score.num 7], Score.num 6) ∧
    eval_objective_list_by_steps () [step_obj] 2 [1, 1] "last" none 0 {}
      = Except.ok ([Score.num 5, Score.num 7], Score.num 7) := by
  with_unfolding_all decide

/-- C5 (refuting evaluation): when `thresholds` is provided the early-stop
comparison `zip(final_scores, threshold, objective_function_signs)` is
reached with `final_scores` a scalar (`np.float64`), which is not
iterable, so the call raises TypeError at the very first step instead of
early-stopping: here a constant objective scoring `10` against threshold
`0` with weight `+1` should stop at step 0 with `([10], [10])`. -/
theorem eval_by_steps_thresholds_raise_type_error :
    eval_objective_list_by_steps () [const_obj] 5 [1] "mean"
        (some [[Score.num 0], [Score.num 0], [Score.num 0],
               [Score.num 0], [Score.num 0]]) 0 {}
      = Except.error PyError.typeError := by
  with_unfolding_all decide

/-- C6 (refuting evaluation): `parallel_eval_objective_list_by_steps` fans
out `eval_objective_list`, not the staged evaluator: the staged knobs
(`n_steps`, `objective_function_weights`, `final_score_strategy`,
`thresholds`) are forwarded as keyword arguments into each objective call
— a typical objective rejects them with TypeError, so every row collapses
to `["INVALID"]` — and the result is a flat score row per individual, not
an `(all_step_scores, final_scores)` pair.  The same individual and
objective evaluated by `eval_objective_list_by_steps` itself would
succeed with `([3], 3)`. -/
theorem parallel_by_steps_wraps_plain_evaluator :
    parallel_eval_objective_list_by_steps [()] [plain_obj] [1] 3 "mean"
        none 1 0 none {}
      = Except.ok [[Score.invalid]] ∧
    eval_objective_list_by_steps () [plain_obj] 3 [1] "mean" none 0 {}
      = Except.ok ([Score.num 3], Score.num 3) := by
  with_unfolding_all decide

/-- C10: `eval_objective_list_by_steps` needs `n_steps ≥ 1`: with
`n_steps = 0` the step loop never runs, the locals `scores` and
`final_scores` are never assigned, and the final
`return scores, final_scores` raises NameError instead of returning an
empty history — for every individual, objective list, weight vector,
strategy, thresholds, verbosity and kwargs. -/
theorem eval_by_steps_zero_steps_name_error {I : Type} (ind : I)
    (objective_list : List (I → Kwargs → ObjCall))
    (objective_function_weights : List Rat) (final_score_strategy : String)
    (thresholds : Option (List (List Score))) (verbose : Nat) (kw : Kwargs) :
    eval_objective_list_by_steps ind objective_list 0
        objective_function_weights final_score_strategy thresholds verbose kw
      = Except.error PyError.nameError := rfl

/-- C7: the matrix returned by `parallel_eval_objective_list` does not
depend on `n_jobs` (first conjunct, for any two worker counts); it has one
row per individual; without width normalization, row `i` is exactly the
sequential evaluation of `individual_list[i]`, in input order regardless
of completion order; and for a second population that differs only at
position `j`, every row other than `j` of the returned matrix is
unchanged — so making the individual at position `j` fail changes only
row `j`. -/
theorem parallel_eval_objective_list_ordered_rowlocal {I : Type}
    (inds inds2 : List I) (objs : List (I → Kwargs → ObjCall))
    (n_jobs n_jobs2 verbose : Nat) (timeout : Option Nat)
    (ncols : Option Nat) (kw : Kwargs) (j : Nat) (m m2 : List (List Score))
    (hm : parallel_eval_objective_list inds objs n_jobs verbose timeout
        ncols kw = Except.ok m)
    (hm2 : parallel_eval_objective_list inds2 objs n_jobs verbose timeout
        ncols kw = Except.ok m2)
    (hlen : inds.length = inds2.length)
    (hagree : ∀ (i : Nat) (h1 : i < inds.length) (h2 : i < inds2.length),
      i ≠ j → inds.get ⟨i, h1⟩ = inds2.get ⟨i, h2⟩) :
    parallel_eval_objective_list inds objs n_jobs verbose timeout ncols kw
      = parallel_eval_objective_list inds objs n_jobs2 verbose timeout ncols kw
    ∧ m.length = inds.length
    ∧ (ncols = none → ∀ (i : Nat) (h1 : i < inds.length) (h2 : i < m.length),
        eval_objective_list (inds.get ⟨i, h1⟩) objs verbose timeout kw
          = Except.ok (m.get ⟨i, h2⟩))
    ∧ m2.length = m.length
    ∧ (∀ (i : Nat) (h1 : i < m.length) (h2 : i < m2.length), i ≠ j →
        m.get ⟨i, h1⟩ = m2.get ⟨i, h2⟩) := by
  cases hdc : dask_compute
      (fun ind => eval_objective_list ind objs verbose timeout kw) inds with
  | error e => simp [parallel_eval_objective_list, hdc] at hm
  | ok base =>
    cases hdc2 : dask_compute
        (fun ind => eval_objective_list ind objs verbose timeout kw) inds2 with
    | error e => simp [parallel_eval_objective_list, hdc2] at hm2
    | ok base2 =>
      have hblen := dask_compute_ok_length _ inds base hdc
      have hblen2 := dask_compute_ok_length _ inds2 base2 hdc2
      have hbase_agree : ∀ (i : Nat) (h1 : i < base.length)
          (h2 : i < base2.length), i ≠ j →
          base.get ⟨i, h1⟩ = base2.get ⟨i, h2⟩ := by
        intro i h1 h2 hne
        have hi1 : i < inds.length := by omega
        have hi2 : i < inds2.length := by omega
        have e1 := dask_compute_ok_get _ inds base hdc i hi1 h1
        have e2 := dask_compute_ok_get _ inds2 base2 hdc2 i hi2 h2
        rw [hagree i hi1 hi2 hne] at e1
        rw [e1] at e2
        exact Except.ok.inj e2
      cases ncols with
      | none =>
        simp [parallel_eval_objective_list, hdc] at hm
        simp [parallel_eval_objective_list, hdc2] at hm2
        subst hm
        subst hm2
        refine ⟨rfl, hblen, ?_, by omega, hbase_agree⟩
        intro _ i h1 h2
        exact dask_compute_ok_get _ inds base hdc i h1 h2
      | some n =>
        simp [parallel_eval_objective_list, hdc] at hm
        simp [parallel_eval_objective_list, hdc2] at hm2
        subst hm
        subst hm2
        have hplen : (process_scores base n).length = base.length := by
          simp [process_scores]
        have hplen2 : (process_scores base2 n).length = base2.length := by
          simp [process_scores]
        refine ⟨rfl, by omega, ?_, by omega, ?_⟩
        · intro hcontra
          simp at hcontra
        · intro i h1 h2 hne
          have hb1 : i < base.length := by omega
          have hb2 : i < base2.length := by omega
          rw [process_scores_get base n i h1 hb1,
              process_scores_get base2 n i h2 hb2,
              hbase_agree i hb1 hb2 hne]

/-- Witness for C7 with the singleton populations `[5]` and `[7]` and the
identity-score objective: the returned matrix `[[5]]` has one row per
individual, and the hypotheses (including the vacuous off-`0` agreement)
are discharged concretely. -/
theorem parallel_eval_objective_list_ordered_rowlocal_witness :
    ([[Score.num 5]] : List (List Score)).length = ([5] : List Nat).length ∧
    (∀ (i : Nat) (h1 : i < ([[Score.num 5]] : List (List Score)).length)
        (h2 : i < ([[Score.num 7]] : List (List Score)).length), i ≠ 0 →
      ([[Score.num 5]] : List (List Score)).get ⟨i, h1⟩
        = ([[Score.num 7]] : List (List Score)).get ⟨i, h2⟩) :=
  ⟨(parallel_eval_objective_list_ordered_rowlocal [5] [7] [id_obj] 1 4 0
      none none {} 0 [[Score.num 5]] [[Score.num 7]] (by decide) (by decide)
      rfl (fun i h1 _ hne => absurd (Nat.lt_one_iff.mp h1) hne)).2.1,
   (parallel_eval_objective_list_ordered_rowlocal [5] [7] [id_obj] 1 4 0
      none none {} 0 [[Score.num 5]] [[Score.num 7]] (by decide) (by decide)
      rfl (fun i h1 _ hne => absurd (Nat.lt_one_iff.mp h1) hne)).2.2.2.2⟩

/-- C8: `optimize_objective` is a total function into results — an
exception raised by `individual.optimize` never propagates to its caller
— and every failure is signalled with the numeric sentinel `nan`, never
with the `"TIMEOUT"`/`"INVALID"` tags of the evaluation path: a raise
observed without a timeout yields `[nan]`, a raise within the budget
yields `[nan]`, and a timed-out call — `stopit`'s `TimeoutException`
caught by the body's blanket `except` — also yields `[nan]`. -/
theorem optimize_objective_failures_are_nan {I O : Type}
    (optimize_impl : I → O → Nat → ObjCall) (ind : I) (objective : O)
    (steps verbose t : Nat) (e : PyExc)
    (hraise : (optimize_impl ind objective steps).result = Except.error e) :
    optimize_objective optimize_impl ind objective steps verbose none
      = OptResult.list [Score.nan]
    ∧ ((optimize_impl ind objective steps).duration ≤ t →
        optimize_objective optimize_impl ind objective steps verbose (some t)
          = OptResult.list [Score.nan])
    ∧ (t < (optimize_impl ind objective steps).duration →
        optimize_objective optimize_impl ind objective steps verbose (some t)
          = OptResult.list [Score.nan]) := by
  refine ⟨by simp [optimize_objective, hraise], ?_, ?_⟩
  · intro hfast
    simp [optimize_objective, hraise, Nat.not_lt.mpr hfast]
  · intro hslow
    simp [optimize_objective, hslow]

/-- Witness for C8: a raising `optimize` implementation yields `[nan]`
when called without a timeout. -/
theorem optimize_objective_failures_are_nan_witness :
    optimize_objective raising_optimize_impl () () 3 0 none
      = OptResult.list [Score.nan] :=
  (optimize_objective_failures_are_nan raising_optimize_impl () () 3 0 2
    (PyExc.generic 1) rfl).1

/-- C9 (refuting evaluation): the claimed shape asymmetry does not hold.
For the raising, 5-second `optimize` implementation, the exception mode
(no budget) and the timeout mode (2-second budget, expiring mid-call)
both return the one-element *list* `[nan]`: `stopit`'s
`TimeoutException` is an `Exception` subclass caught inside the body, so
the timed-out call does *not* return the decorator's bare scalar `nan`
the claim asserts. -/
theorem optimize_objective_timeout_shape_counterexample :
    optimize_objective raising_optimize_impl () () 3 0 none
      = OptResult.list [Score.nan]
    ∧ optimize_objective raising_optimize_impl () () 3 0 (some 2)
      = OptResult.list [Score.nan]
    ∧ OptResult.list [Score.nan] ≠ OptResult.scalar Score.nan := by
  decide

/-- C9 (amended): the two failure modes of `optimize_objective` produce
results of the *same* shape: an exception inside `individual.optimize`
yields the one-element list `[nan]`, and a timeout also yields the
one-element list `[nan]` — `stopit`'s `TimeoutException` subclasses
`Exception` and is caught inside the body by the blanket `except` before
the decorator's bare-scalar `nan` default can be returned — so a caller
receives a sequence-shaped `[nan]` on failure in either mode. -/
theorem optimize_objective_failure_shapes_uniform {I O : Type}
    (optimize_impl : I → O → Nat → ObjCall) (ind : I) (objective : O)
    (steps verbose t : Nat) (e : PyExc)
    (hraise : (optimize_impl ind objective steps).result = Except.error e)
    (hslow : t < (optimize_impl ind objective steps).duration) :
    optimize_objective optimize_impl ind objective steps verbose none
      = OptResult.list [Score.nan]
    ∧ optimize_objective optimize_impl ind objective steps verbose (some t)
      = OptResult.list [Score.nan] :=
  ⟨by simp [optimize_objective, hraise], by simp [optimize_objective, hslow]⟩

/-- Witness for the amended C9: for the raising, 5-second `optimize`
implementation under a 2-second budget, the timeout path returns the
list `[nan]`. -/
theorem optimize_objective_failure_shapes_uniform_witness :
    optimize_objective raising_optimize_impl () () 4 0 (some 2)
      = OptResult.list [Score.nan] :=
  (optimize_objective_failure_shapes_uniform raising_optimize_impl () () 4 0 2
    (PyExc.generic 1) rfl (by decide)).2
